import Mathlib

/-!
Verification development for the ECHO game-master core: a shallow embedding
of the Cypher System rules engine (`game_master/cypher_rules.py`), the
character model (`game_master/character.py`), the session registry
(`game_master/session_state.py`) and the turn pipeline's action processing
(`game_master/gm_engine.py`), together with theorems settling the stated
properties of those components.

Modelling conventions:
  * Python `int` is embedded as `Int` (unbounded, signed).
  * Python dictionaries are embedded as association lists with
    replace-or-append insertion and first-match lookup.
  * `random.randint(1, 20)` rolls are passed in as an explicit argument.
  * `datetime` values are embedded by their ISO-8601 rendering, under which
    `fromisoformat` is exactly inverse to `isoformat`.
  * Methods that mutate `self` in Python return the updated value here.
-/

/-! ### Dictionary model (Python `dict`) -/

/-- Lookup in an association list: first binding of the key, if any. -/
def dict_find? {κ α : Type} [BEq κ] (k : κ) : List (κ × α) → Option α
  | [] => none
  | kv :: rest => if kv.1 == k then some kv.2 else dict_find? k rest

/-- `d[k] = v` on an association list: replace the first binding of `k`,
or append a new binding when the key is absent. -/
def dict_insert {κ α : Type} [BEq κ] (k : κ) (v : α) : List (κ × α) → List (κ × α)
  | [] => [(k, v)]
  | kv :: rest => if kv.1 == k then (k, v) :: rest else kv :: dict_insert k v rest

theorem dict_find?_insert {κ α : Type} [BEq κ] [LawfulBEq κ] (k : κ) (v : α)
    (d : List (κ × α)) : dict_find? k (dict_insert k v d) = some v := by
  induction d with
  | nil => simp [dict_insert, dict_find?]
  | cons kv rest ih =>
    by_cases h : kv.1 == k
    · simp [dict_insert, dict_find?, h]
    · simp only [Bool.not_eq_true] at h
      simp [dict_insert, dict_find?, h, ih]

/-! ### String helpers (Python `str.lower`, `str.strip`, digit matching) -/

/-- ASCII lowering of one character (the behaviour of Python `str.lower`
on the ASCII strings this code ever passes). -/
def char_lower (c : Char) : Char :=
  if 'A' ≤ c && c ≤ 'Z' then Char.ofNat (c.toNat + 32) else c

/-- Python `str.lower` (ASCII fragment). -/
def str_lower (s : String) : String :=
  String.mk (s.data.map char_lower)

/-- Python `str.strip`: drop whitespace from both ends. -/
def str_strip (s : String) : String :=
  String.mk (((s.data.dropWhile Char.isWhitespace).reverse.dropWhile
    Char.isWhitespace).reverse)

/-- Does the string match the regex `^(\d+)$` (a nonempty run of digits)? -/
def is_digit_string (s : String) : Bool :=
  !s.data.isEmpty && s.data.all Char.isDigit

/-- Numeric value of a digit string (Python `int(s)` on a `\d+` match). -/
def digits_to_nat (s : String) : Nat :=
  s.data.foldl (fun n c => 10 * n + (c.toNat - 48)) 0

/-! ### StatPool and CharacterStats (`cypher_rules.py` lines 13-52) -/

/-- A stat pool (Might, Speed, Intellect): `current`, `maximum`, and
`edge` (reduces cost of spending from this pool). -/
structure StatPool where
  current : Int
  maximum : Int
  edge : Int
deriving DecidableEq, Repr

/-- `StatPool.spend`: spend points from the pool, accounting for edge.
Returns the actual cost together with the updated pool. -/
def StatPool.spend (p : StatPool) (amount : Int) : Int × StatPool :=
  if amount ≤ p.edge then
    (0, p)  -- Edge covers the cost
  else
    let actual_cost := amount - p.edge
    (actual_cost, { p with current := max 0 (p.current - actual_cost) })

/-- `StatPool.restore`: restore points to the pool (up to maximum). -/
def StatPool.restore (p : StatPool) (amount : Int) : StatPool :=
  { p with current := min p.maximum (p.current + amount) }

/-- `StatPool.is_depleted`: is the pool at zero? -/
def StatPool.is_depleted (p : StatPool) : Bool :=
  p.current ≤ 0

/-- Complete character stat block. -/
structure CharacterStats where
  might : StatPool
  speed : StatPool
  intellect : StatPool
  tier : Int := 1
  xp : Int := 0
deriving DecidableEq, Repr

/-- `CharacterStats.get_pool`: fetch a stat pool by (lowercased) name. -/
def CharacterStats.get_pool (c : CharacterStats) (pool_name : String) :
    Option StatPool :=
  let n := str_lower pool_name
  if n = "might" then some c.might
  else if n = "speed" then some c.speed
  else if n = "intellect" then some c.intellect
  else none

/-- Write-back of the pool fetched by `get_pool` (the Python original
mutates the shared `StatPool` object in place; in the value-passing
embedding the updated pool is stored back under the same name). -/
def CharacterStats.set_pool (c : CharacterStats) (pool_name : String)
    (p : StatPool) : CharacterStats :=
  let n := str_lower pool_name
  if n = "might" then { c with might := p }
  else if n = "speed" then { c with speed := p }
  else if n = "intellect" then { c with intellect := p }
  else c

/-! ### Rules engine (`cypher_rules.py` lines 54-233) -/

namespace CypherRules

/-- The `DIFFICULTY_TARGETS` table: difficulty 0-10 to target number. -/
def DIFFICULTY_TARGETS : List (Int × Int) :=
  [(0, 0), (1, 3), (2, 6), (3, 9), (4, 12), (5, 15), (6, 18), (7, 21),
   (8, 24), (9, 27), (10, 30)]

/-- `get_target_number`: convert difficulty (clamped to 0-10) to a target
number via the table. -/
def get_target_number (difficulty : Int) : Int :=
  let d := max 0 (min 10 difficulty)
  (dict_find? d DIFFICULTY_TARGETS).getD 0

/-- `calculate_effective_difficulty`: subtract skills, assets (capped at 2)
and effort from the base difficulty, clamping the final value to [0, 10]. -/
def calculate_effective_difficulty (base_difficulty : Int) (skills : Int := 0)
    (assets : Int := 0) (effort : Int := 0) : Int :=
  let effective := base_difficulty
  let effective := effective - skills
  let effective := effective - min assets 2
  let effective := effective - effort
  max 0 (min 10 effective)

/-- The `result` dictionary built by `resolve_task`. -/
structure TaskResult where
  success : Bool
  roll : Int
  target : Int
  effective_difficulty : Int
  base_difficulty : Int
  pool_used : String
  pool_remaining : Int
  effort_applied : Int
  effort_cost : Int
  is_critical : Bool
  is_fumble : Bool
  margin : Int
deriving DecidableEq, Repr

/-- `resolve_task`: resolve a task roll.  The d20 outcome of `roll_d20`
is supplied as the explicit argument `roll`.  Returns `none` in place of the
Python `(False, {"error": ...})` pair when the pool name is invalid, and
the (possibly effort-spent) character stats alongside the result. -/
def resolve_task (base_difficulty : Int) (pool_name : String)
    (character : CharacterStats) (skills : Int := 0) (assets : Int := 0)
    (effort_level : Int := 0) (roll : Int := 1) :
    Option (Bool × TaskResult) × CharacterStats :=
  match character.get_pool pool_name with
  | none => (none, character)
  | some pool =>
    -- Calculate effective difficulty
    let effective_diff :=
      calculate_effective_difficulty base_difficulty skills assets effort_level
    -- Spend effort cost (each level costs 3 points, reduced by edge)
    let cost_per_level := max 1 (3 - pool.edge)  -- Minimum 1 point per level
    let effort_cost := effort_level * cost_per_level
    let pool := if effort_cost > 0 then (pool.spend effort_cost).2 else pool
    let character := character.set_pool pool_name pool
    -- Get target number
    let target := get_target_number effective_diff
    -- Check for special results
    let is_critical := roll == 19 || roll == 20
    let is_fumble := roll == 1
    -- Determine success
    let success := decide (roll ≥ target) || is_critical
    let result : TaskResult :=
      { success := success
        roll := roll
        target := target
        effective_difficulty := effective_diff
        base_difficulty := base_difficulty
        pool_used := pool_name
        pool_remaining := pool.current
        effort_applied := effort_level
        effort_cost := effort_cost
        is_critical := is_critical
        is_fumble := is_fumble
        margin := if success then roll - target else target - roll }
    (some (success, result), character)

/-- The result dictionary of `apply_damage`. -/
structure DamageResult where
  damage_dealt : Int
  pool : String
  remaining : Int
  depleted : Bool
deriving DecidableEq, Repr

/-- `apply_damage`: apply damage to a stat pool, flooring it at zero.
Returns `none` for the `{"error": ...}` dictionary on a bad pool name. -/
def apply_damage (character : CharacterStats) (damage : Int)
    (pool_name : String) : Option DamageResult × CharacterStats :=
  match character.get_pool pool_name with
  | none => (none, character)
  | some pool =>
    let pool := { pool with current := max 0 (pool.current - damage) }
    let character := character.set_pool pool_name pool
    (some { damage_dealt := damage
            pool := pool_name
            remaining := pool.current
            depleted := pool.is_depleted }, character)

end CypherRules

/-! ### Character model (`character.py` lines 77-148) -/

/-- A one-use magical ability. -/
structure Cypher where
  name : String
  description : String
  level : Int := 1
  used : Bool := false
deriving DecidableEq, Repr

/-- Complete Cypher System character. -/
structure Character where
  name : String
  descriptor : String
  type : String
  focus : String
  stats : CharacterStats
  inventory : List String := []
  cyphers : List Cypher := []
  skills : List (String × Int) := []
  special_abilities : List String := []
deriving DecidableEq, Repr

/-- `Character.add_cypher`: add a cypher (max 2 typically); when the
character already holds 2, `pop(0)` removes the oldest before appending. -/
def Character.add_cypher (c : Character) (cypher : Cypher) : Character :=
  if c.cyphers.length < 2 then
    { c with cyphers := c.cyphers ++ [cypher] }
  else
    { c with cyphers := c.cyphers.drop 1 ++ [cypher] }

/-! ### Session state (`session_state.py`) -/

/-- A `datetime.datetime` value, embedded by its ISO-8601 rendering
(`fromisoformat` recovers a datetime exactly from `isoformat`). -/
structure DateTime where
  iso : String
deriving DecidableEq, Repr

/-- `datetime.isoformat`. -/
def DateTime.isoformat (d : DateTime) : String := d.iso

/-- `datetime.fromisoformat`. -/
def DateTime.fromisoformat (s : String) : DateTime := ⟨s⟩

/-- Information about a game session. -/
structure SessionInfo where
  session_id : String
  channel_id : Int
  mode : String
  status : String
  created_at : DateTime
  last_activity : DateTime
  user_ids : List Int := []
  turn_count : Int := 0
  scene_count : Int := 0
deriving DecidableEq, Repr

/-- The dictionary produced by `SessionInfo.to_dict` (`asdict` with the two
datetime fields rendered via `isoformat`). -/
structure SessionInfoDict where
  session_id : String
  channel_id : Int
  mode : String
  status : String
  created_at : String
  last_activity : String
  user_ids : List Int
  turn_count : Int
  scene_count : Int
deriving DecidableEq, Repr

/-- `SessionInfo.to_dict`. -/
def SessionInfo.to_dict (s : SessionInfo) : SessionInfoDict :=
  { session_id := s.session_id
    channel_id := s.channel_id
    mode := s.mode
    status := s.status
    created_at := s.created_at.isoformat
    last_activity := s.last_activity.isoformat
    user_ids := s.user_ids
    turn_count := s.turn_count
    scene_count := s.scene_count }

/-- `SessionInfo.from_dict`: parse the datetime fields back and rebuild. -/
def SessionInfo.from_dict (d : SessionInfoDict) : SessionInfo :=
  { session_id := d.session_id
    channel_id := d.channel_id
    mode := d.mode
    status := d.status
    created_at := DateTime.fromisoformat d.created_at
    last_activity := DateTime.fromisoformat d.last_activity
    user_ids := d.user_ids
    turn_count := d.turn_count
    scene_count := d.scene_count }

/-- An entry of the game-state event log (`type`, `description`,
generated `timestamp`, and a metadata dictionary). -/
structure Event where
  type : String
  description : String
  timestamp : String
  metadata : List (String × String) := []
deriving DecidableEq, Repr

/-- Complete game state for a session.  NPC data dictionaries are embedded
as association lists of string pairs. -/
structure GameState where
  session_id : String
  current_scene : String
  scene_description : String
  available_choices : List String := []
  npcs : List (String × List (String × String)) := []
  locations : List String := []
  events : List Event := []
  context_summary : String := ""
deriving DecidableEq, Repr

/-- `GameState.to_dict` is `asdict`, which is field-for-field on this
record (no datetime fields), so the dictionary is the record itself. -/
def GameState.to_dict (g : GameState) : GameState := g

/-- `GameState.from_dict` rebuilds the dataclass from the `asdict` image. -/
def GameState.from_dict (d : GameState) : GameState := d

/-- The per-character dictionary built by `export_session` for each pool. -/
structure PoolDict where
  current : Int
  max : Int
  edge : Int
deriving DecidableEq, Repr

/-- The per-character dictionary built by `export_session`. -/
structure CharExport where
  name : String
  descriptor : String
  type : String
  focus : String
  tier : Int
  xp : Int
  might : PoolDict
  speed : PoolDict
  intellect : PoolDict
  inventory : List String
  skills : List (String × Int)
deriving DecidableEq, Repr

/-- The dictionary returned by `export_session`. -/
structure ExportData where
  session : SessionInfoDict
  game_state : Option GameState
  characters : List (String × CharExport)
deriving DecidableEq, Repr

/-- The in-memory session registry (`SessionManager.__init__`). -/
structure SessionManager where
  active_sessions : List (String × SessionInfo) := []
  session_states : List (String × GameState) := []
  player_characters : List (String × List (Int × Character)) := []
deriving DecidableEq, Repr

/-- `SessionManager.get_session`. -/
def SessionManager.get_session (m : SessionManager) (session_id : String) :
    Option SessionInfo :=
  dict_find? session_id m.active_sessions

/-- `SessionManager.get_game_state`. -/
def SessionManager.get_game_state (m : SessionManager) (session_id : String) :
    Option GameState :=
  dict_find? session_id m.session_states

/-- `SessionManager.create_session`: build a fresh `SessionInfo` and store
it, then initialize the game state and the player-character dictionary for
the id.  The `datetime.now()` value is the explicit `now` argument.
The source performs no existence check: all three stores are written
unconditionally. -/
def SessionManager.create_session (m : SessionManager) (session_id : String)
    (channel_id : Int) (user_id : Int) (mode : String := "solo")
    (now : DateTime := ⟨""⟩) : SessionInfo × SessionManager :=
  let session : SessionInfo :=
    { session_id := session_id
      channel_id := channel_id
      mode := mode
      status := "active"
      created_at := now
      last_activity := now
      user_ids := [user_id] }
  let m := { m with active_sessions := dict_insert session_id session m.active_sessions }
  -- Initialize game state
  let game_state : GameState :=
    { session_id := session_id
      current_scene := "opening"
      scene_description := ""
      available_choices := [] }
  let m := { m with session_states := dict_insert session_id game_state m.session_states }
  -- Initialize player characters dict
  let m := { m with player_characters := dict_insert session_id [] m.player_characters }
  (session, m)

/-- `SessionManager.pause_session`: sets the status to `"paused"`
whenever the session exists, with no check of the current status. -/
def SessionManager.pause_session (m : SessionManager) (session_id : String) :
    Bool × SessionManager :=
  match m.get_session session_id with
  | none => (false, m)
  | some session =>
    let session := { session with status := "paused" }
    (true, { m with active_sessions := dict_insert session_id session m.active_sessions })

/-- `SessionManager.resume_session`: back to `"active"`, but only from
`"paused"`; refreshes `last_activity` with `now`. -/
def SessionManager.resume_session (m : SessionManager) (session_id : String)
    (now : DateTime := ⟨""⟩) : Bool × SessionManager :=
  match m.get_session session_id with
  | none => (false, m)
  | some session =>
    if session.status = "paused" then
      let session := { session with status := "active", last_activity := now }
      (true, { m with active_sessions := dict_insert session_id session m.active_sessions })
    else (false, m)

/-- `SessionManager.end_session`: sets the status to `"completed"`
whenever the session exists. -/
def SessionManager.end_session (m : SessionManager) (session_id : String) :
    Bool × SessionManager :=
  match m.get_session session_id with
  | none => (false, m)
  | some session =>
    let session := { session with status := "completed" }
    (true, { m with active_sessions := dict_insert session_id session m.active_sessions })

/-- The per-character export dictionary of `export_session`. -/
def char_to_export (ch : Character) : CharExport :=
  { name := ch.name
    descriptor := ch.descriptor
    type := ch.type
    focus := ch.focus
    tier := ch.stats.tier
    xp := ch.stats.xp
    might := { current := ch.stats.might.current, max := ch.stats.might.maximum,
               edge := ch.stats.might.edge }
    speed := { current := ch.stats.speed.current, max := ch.stats.speed.maximum,
               edge := ch.stats.speed.edge }
    intellect := { current := ch.stats.intellect.current,
                   max := ch.stats.intellect.maximum,
                   edge := ch.stats.intellect.edge }
    inventory := ch.inventory
    skills := ch.skills }

/-- `SessionManager.export_session`: `None` when the session id is
unknown, otherwise the structured dump of session info, game state and
character summaries. -/
def SessionManager.export_session (m : SessionManager) (session_id : String) :
    Option ExportData :=
  match m.get_session session_id with
  | none => none
  | some session =>
    let state := m.get_game_state session_id
    let characters := (dict_find? session_id m.player_characters).getD []
    let char_dicts := characters.map (fun uc => (toString uc.1, char_to_export uc.2))
    some { session := session.to_dict
           game_state := state.map GameState.to_dict
           characters := char_dicts }

/-- `SessionManager.import_session`: rebuild the `SessionInfo` (keyed by
its own `session_id`), rebuild the game state when one was exported, and
reset the character dictionary to empty (full character reconstruction is
not implemented).  On structured `ExportData` the `try` body cannot raise,
so the except branch returning `None` is unreachable here. -/
def SessionManager.import_session (m : SessionManager) (data : ExportData) :
    Option String × SessionManager :=
  let session := SessionInfo.from_dict data.session
  let session_id := session.session_id
  let m := { m with active_sessions := dict_insert session_id session m.active_sessions }
  let m :=
    match data.game_state with
    | some gs =>
      { m with session_states := dict_insert session_id (GameState.from_dict gs) m.session_states }
    | none => m
  -- the exported dump always carries a "characters" key
  let m := { m with player_characters := dict_insert session_id [] m.player_characters }
  (some session_id, m)

/-! ### Turn pipeline (`gm_engine.py` lines 225-332) -/

/-- The `(scene_description, choices, key_moment_type)` triple returned by
`process_player_action`. -/
structure TurnOutput where
  scene_description : String
  choices : List String
  key_moment : Option String
deriving DecidableEq, Repr

/-- `str(e)` for the `AttributeError` raised when `process_player_action`
reads `state.scene_count` (`gm_engine.py` line 314): `GameState` has no
`scene_count` field — that counter lives on `SessionInfo` — and nothing
assigns one dynamically. -/
def err_no_scene_count : String :=
  "\x27GameState\x27 object has no attribute \x27scene_count\x27"

/-- `GameMasterEngine.process_player_action`, with the outcome of the
narrator call `ai_coordinator.ask_mistral` supplied as the explicit
argument `narr` (`Except.error e` models the call raising `e`).

Inside the `try` block, a successful narrator response is parsed and
classified, but the subsequent `update_game_state(scene=f"...{state.scene_count + 1}", ...)`
argument evaluation raises `AttributeError` (see `err_no_scene_count`)
before any state is committed; the blanket `except Exception` handler
then produces the same fallback shape as a narrator failure, so both
cases of the `try` are embedded through the handler and the parsed scene
and key moment, being discarded, are not modelled further. -/
def GameMasterEngine.process_player_action (m : SessionManager)
    (session_id : String) (action : String) (narr : Except String String) :
    TurnOutput × SessionManager :=
  match m.get_game_state session_id with
  | none =>
    ({ scene_description := "Session not found.", choices := [],
       key_moment := none }, m)
  | some state =>
    -- Check if action is a numbered choice: re.match(r'^(\d+)$', action.strip())
    let stripped := str_strip action
    let tryBlock : TurnOutput × SessionManager :=
      match narr with
      | Except.error e =>
        ({ scene_description := "Something went wrong processing your action: " ++ e,
           choices := state.available_choices, key_moment := none }, m)
      | Except.ok _response =>
        ({ scene_description := "Something went wrong processing your action: " ++ err_no_scene_count,
           choices := state.available_choices, key_moment := none }, m)
    if is_digit_string stripped then
      let choice_num : Int := (digits_to_nat stripped : Int) - 1
      if 0 ≤ choice_num ∧ choice_num < (state.available_choices.length : Int) then
        -- action is replaced by the chosen entry, then flows into the try block
        tryBlock
      else
        ({ scene_description :=
             "Invalid choice number. Please pick 1-" ++
               toString state.available_choices.length ++ ".",
           choices := state.available_choices, key_moment := none }, m)
    else
      tryBlock

/-! ### Supporting lemmas -/

/-- Evaluation of the difficulty table on its domain. -/
theorem difficulty_table_eval (c : Int) (h1 : 0 ≤ c) (h2 : c ≤ 10) :
    (dict_find? c CypherRules.DIFFICULTY_TARGETS).getD 0 = 3 * c := by
  interval_cases c <;> rfl

/-- `get_target_number` is three times the difficulty clamped to [0, 10]. -/
theorem get_target_number_eq (d : Int) :
    CypherRules.get_target_number d = 3 * max 0 (min 10 d) :=
  difficulty_table_eval (max 0 (min 10 d)) (le_max_left 0 _) (by omega)

/-- Closed form of `calculate_effective_difficulty`. -/
theorem calculate_effective_difficulty_eq (b s a e : Int) :
    CypherRules.calculate_effective_difficulty b s a e
      = max 0 (min 10 (b - s - min a 2 - e)) := rfl

/-- Reading back the pool just written by `set_pool` under a name that
`get_pool` recognises. -/
theorem get_pool_set_pool (c : CharacterStats) (pn : String) (p q : StatPool)
    (hp : c.get_pool pn = some p) :
    (c.set_pool pn q).get_pool pn = some q := by
  unfold CharacterStats.get_pool CharacterStats.set_pool at *
  by_cases h1 : str_lower pn = "might"
  · simp [h1]
  · by_cases h2 : str_lower pn = "speed"
    · simp [h1, h2]
    · by_cases h3 : str_lower pn = "intellect"
      · simp [h1, h2, h3]
      · simp [h1, h2, h3] at hp

/-! ### C4: effective difficulty and target number -/

/-- C4: for all integer inputs, `calculate_effective_difficulty` equals
`base - skills - min(assets, 2) - effort` clamped to [0, 10], with the
clamp applied only to the final value; it is monotonically non-increasing
in skills, assets and effort and always lies in [0, 10]; concretely
`calculate_effective_difficulty 4 1 1 1 = 1` and `get_target_number 1 = 3`,
the target number being three times the clamped difficulty. -/
theorem effective_difficulty_spec (base skills assets effort : Int)
    (skills2 assets2 effort2 : Int)
    (hs : skills ≤ skills2) (ha : assets ≤ assets2) (he : effort ≤ effort2) :
    CypherRules.calculate_effective_difficulty base skills assets effort
        = max 0 (min 10 (base - skills - min assets 2 - effort)) ∧
    CypherRules.calculate_effective_difficulty base skills2 assets effort
        ≤ CypherRules.calculate_effective_difficulty base skills assets effort ∧
    CypherRules.calculate_effective_difficulty base skills assets2 effort
        ≤ CypherRules.calculate_effective_difficulty base skills assets effort ∧
    CypherRules.calculate_effective_difficulty base skills assets effort2
        ≤ CypherRules.calculate_effective_difficulty base skills assets effort ∧
    0 ≤ CypherRules.calculate_effective_difficulty base skills assets effort ∧
    CypherRules.calculate_effective_difficulty base skills assets effort ≤ 10 ∧
    CypherRules.calculate_effective_difficulty 4 1 1 1 = 1 ∧
    CypherRules.get_target_number 1 = 3 ∧
    (∀ d : Int, CypherRules.get_target_number d = 3 * max 0 (min 10 d)) := by
  refine ⟨rfl, ?_, ?_, ?_, ?_, ?_, by decide, by decide, get_target_number_eq⟩ <;>
    · simp only [calculate_effective_difficulty_eq]
      omega

/-- Witness instantiating `effective_difficulty_spec` at concrete inputs. -/
theorem effective_difficulty_spec_witness :
    CypherRules.calculate_effective_difficulty 4 1 1 1
        = max 0 (min 10 (4 - 1 - min 1 2 - 1)) ∧
    CypherRules.calculate_effective_difficulty 4 2 1 1
        ≤ CypherRules.calculate_effective_difficulty 4 1 1 1 ∧
    CypherRules.calculate_effective_difficulty 4 1 3 1
        ≤ CypherRules.calculate_effective_difficulty 4 1 1 1 ∧
    CypherRules.calculate_effective_difficulty 4 1 1 2
        ≤ CypherRules.calculate_effective_difficulty 4 1 1 1 ∧
    0 ≤ CypherRules.calculate_effective_difficulty 4 1 1 1 ∧
    CypherRules.calculate_effective_difficulty 4 1 1 1 ≤ 10 ∧
    CypherRules.calculate_effective_difficulty 4 1 1 1 = 1 ∧
    CypherRules.get_target_number 1 = 3 ∧
    (∀ d : Int, CypherRules.get_target_number d = 3 * max 0 (min 10 d)) :=
  effective_difficulty_spec 4 1 1 1 2 3 2 (by decide) (by decide) (by decide)

/-! ### C10: cypher inventory FIFO eviction -/

/-- C10: `add_cypher` preserves the at-most-2 invariant, and adding to a
character already holding exactly two cyphers evicts the first-added one
and appends the new one, leaving the two most recently added. -/
theorem add_cypher_spec (c : Character) (cy : Cypher)
    (h : c.cyphers.length ≤ 2) :
    (c.add_cypher cy).cyphers.length ≤ 2 ∧
    (∀ a b : Cypher, c.cyphers = [a, b] →
      (c.add_cypher cy).cyphers = [b, cy]) := by
  constructor
  · unfold Character.add_cypher
    by_cases hl : c.cyphers.length < 2
    · simp only [hl, if_true, List.length_append, List.length_cons,
        List.length_nil]
      omega
    · simp only [hl, if_false, List.length_append, List.length_drop,
        List.length_cons, List.length_nil]
      omega
  · intro a b hab
    have hlen : c.cyphers.length = 2 := by rw [hab]; rfl
    unfold Character.add_cypher
    simp [hab, hlen]

/-- Witness instantiating `add_cypher_spec` on a character with two
cyphers. -/
theorem add_cypher_spec_witness :
    (({ name := "Ash", descriptor := "awakened", type := "warrior",
        focus := "commands_fire",
        stats := { might := ⟨10, 10, 1⟩, speed := ⟨9, 9, 0⟩,
                   intellect := ⟨7, 7, 0⟩ },
        cyphers := [{ name := "a", description := "da" },
                    { name := "b", description := "db" }] : Character
      }).add_cypher { name := "c", description := "dc" }).cyphers.length ≤ 2 ∧
    (∀ a b : Cypher,
      ([{ name := "a", description := "da" },
        { name := "b", description := "db" }] : List Cypher) = [a, b] →
      (({ name := "Ash", descriptor := "awakened", type := "warrior",
          focus := "commands_fire",
          stats := { might := ⟨10, 10, 1⟩, speed := ⟨9, 9, 0⟩,
                     intellect := ⟨7, 7, 0⟩ },
          cyphers := [{ name := "a", description := "da" },
                      { name := "b", description := "db" }] : Character
        }).add_cypher { name := "c", description := "dc" }).cyphers
          = [b, { name := "c", description := "dc" }]) :=
  add_cypher_spec _ _ (by decide)

/-! ### C1: success, critical and fumble semantics of `resolve_task` -/

/-- C1: for every `resolve_task` call with a valid pool name and a d20
roll in [1, 20], success holds iff the roll meets the target of the
effective difficulty or the roll is 19 or 20; a 20 always succeeds, a
roll equal to the target succeeds, a 1 always sets the fumble flag yet
does not override a success from `roll ≥ target`, and the critical and
fumble flags never co-occur. -/
theorem resolve_task_success_spec (base skills assets effort roll : Int)
    (pn : String) (c : CharacterStats) (p : StatPool)
    (hp : c.get_pool pn = some p) (h1 : 1 ≤ roll) (h2 : roll ≤ 20) :
    ∃ succ r c2,
      CypherRules.resolve_task base pn c skills assets effort roll
        = (some (succ, r), c2) ∧
      succ = r.success ∧
      r.roll = roll ∧
      r.target = CypherRules.get_target_number
        (CypherRules.calculate_effective_difficulty base skills assets effort) ∧
      (r.success = true ↔ (r.target ≤ roll ∨ roll = 19 ∨ roll = 20)) ∧
      (roll = 20 → r.success = true) ∧
      (roll = r.target → r.success = true) ∧
      (r.target ≤ roll → r.success = true) ∧
      (r.is_fumble = true ↔ roll = 1) ∧
      (r.is_critical = true ↔ (roll = 19 ∨ roll = 20)) ∧
      ¬(r.is_critical = true ∧ r.is_fumble = true) := by
  unfold CypherRules.resolve_task
  rw [hp]
  refine ⟨_, _, _, rfl, rfl, rfl, rfl, ?_, ?_, ?_, ?_, ?_, ?_, ?_⟩ <;>
    simp only [Bool.or_eq_true, decide_eq_true_eq, beq_iff_eq] <;> omega

/-- Witness instantiating `resolve_task_success_spec` at a concrete
character, pool and roll. -/
theorem resolve_task_success_spec_witness :
    ((⟨⟨10, 10, 1⟩, ⟨9, 9, 0⟩, ⟨7, 7, 0⟩, 1, 0⟩ :
        CharacterStats).get_pool "might" = some ⟨10, 10, 1⟩) ∧
    (1 ≤ (12 : Int) ∧ (12 : Int) ≤ 20) ∧
    ∃ succ r c2,
      CypherRules.resolve_task 4 "might"
          ⟨⟨10, 10, 1⟩, ⟨9, 9, 0⟩, ⟨7, 7, 0⟩, 1, 0⟩ 1 1 1 12
        = (some (succ, r), c2) ∧
      succ = r.success ∧
      r.roll = 12 ∧
      r.target = CypherRules.get_target_number
        (CypherRules.calculate_effective_difficulty 4 1 1 1) ∧
      (r.success = true ↔ (r.target ≤ 12 ∨ (12 : Int) = 19 ∨ (12 : Int) = 20)) ∧
      ((12 : Int) = 20 → r.success = true) ∧
      ((12 : Int) = r.target → r.success = true) ∧
      (r.target ≤ 12 → r.success = true) ∧
      (r.is_fumble = true ↔ (12 : Int) = 1) ∧
      (r.is_critical = true ↔ ((12 : Int) = 19 ∨ (12 : Int) = 20)) ∧
      ¬(r.is_critical = true ∧ r.is_fumble = true) :=
  ⟨by decide, ⟨by decide, by decide⟩,
    resolve_task_success_spec 4 1 1 1 12 "might" _ ⟨10, 10, 1⟩
      (by decide) (by decide) (by decide)⟩

/-! ### C3: effort cost and pool spending in `resolve_task` -/

/-- C3: with a valid pool, the effort cost passed to the pool equals
`effort_level * max(1, 3 - edge)` and is spent before the die is rolled
(the resulting character state is the same for every roll); `spend`
deducts nothing when the requested amount is at most the edge, and
otherwise deducts `amount - edge` without driving `current` below zero;
with edge 3 and effort level 1 the pool is unchanged. -/
theorem resolve_task_effort_spec (base skills assets effort roll roll2 : Int)
    (pn : String) (c : CharacterStats) (p : StatPool)
    (hp : c.get_pool pn = some p) :
    ∃ succ r c2,
      CypherRules.resolve_task base pn c skills assets effort roll
        = (some (succ, r), c2) ∧
      r.effort_cost = effort * max 1 (3 - p.edge) ∧
      c2.get_pool pn
        = some (if effort * max 1 (3 - p.edge) > 0
                then (p.spend (effort * max 1 (3 - p.edge))).2 else p) ∧
      r.pool_remaining
        = (if effort * max 1 (3 - p.edge) > 0
           then (p.spend (effort * max 1 (3 - p.edge))).2 else p).current ∧
      (CypherRules.resolve_task base pn c skills assets effort roll2).2 = c2 ∧
      (∀ q : StatPool, ∀ amount : Int,
        (amount ≤ q.edge → q.spend amount = (0, q)) ∧
        (q.edge < amount →
          (q.spend amount).1 = amount - q.edge ∧
          (q.spend amount).2.current = max 0 (q.current - (amount - q.edge))) ∧
        (0 ≤ q.current → 0 ≤ (q.spend amount).2.current)) ∧
      (p.edge = 3 → effort = 1 → c2.get_pool pn = some p) := by
  unfold CypherRules.resolve_task
  rw [hp]
  refine ⟨_, _, _, rfl, rfl, get_pool_set_pool c pn p _ hp, rfl, rfl,
    ?_, ?_⟩
  · intro q amount
    refine ⟨fun h => ?_, fun h => ?_, fun h => ?_⟩
    · simp [StatPool.spend, h]
    · rw [StatPool.spend, if_neg (by omega)]
      exact ⟨rfl, rfl⟩
    · by_cases hle : amount ≤ q.edge
      · simpa [StatPool.spend, hle] using h
      · rw [StatPool.spend, if_neg hle]
        simp only []
        omega
  · intro hedge heff
    rw [get_pool_set_pool c pn p _ hp]
    simp [hedge, heff, StatPool.spend]

/-- Witness instantiating `resolve_task_effort_spec` at a pool with
edge 3 and one level of effort (cost fully absorbed). -/
theorem resolve_task_effort_spec_witness :
    ((⟨⟨10, 10, 3⟩, ⟨9, 9, 0⟩, ⟨7, 7, 0⟩, 1, 0⟩ :
        CharacterStats).get_pool "might" = some ⟨10, 10, 3⟩) ∧
    ∃ succ r c2,
      CypherRules.resolve_task 4 "might"
          ⟨⟨10, 10, 3⟩, ⟨9, 9, 0⟩, ⟨7, 7, 0⟩, 1, 0⟩ 0 0 1 12
        = (some (succ, r), c2) ∧
      r.effort_cost = 1 * max 1 (3 - (3 : Int)) ∧
      c2.get_pool "might"
        = some (if (1 : Int) * max 1 (3 - (3 : Int)) > 0
                then ((⟨10, 10, 3⟩ : StatPool).spend
                  (1 * max 1 (3 - (3 : Int)))).2 else ⟨10, 10, 3⟩) ∧
      r.pool_remaining
        = (if (1 : Int) * max 1 (3 - (3 : Int)) > 0
           then ((⟨10, 10, 3⟩ : StatPool).spend
             (1 * max 1 (3 - (3 : Int)))).2 else ⟨10, 10, 3⟩).current ∧
      (CypherRules.resolve_task 4 "might"
          ⟨⟨10, 10, 3⟩, ⟨9, 9, 0⟩, ⟨7, 7, 0⟩, 1, 0⟩ 0 0 1 20).2 = c2 ∧
      (∀ q : StatPool, ∀ amount : Int,
        (amount ≤ q.edge → q.spend amount = (0, q)) ∧
        (q.edge < amount →
          (q.spend amount).1 = amount - q.edge ∧
          (q.spend amount).2.current = max 0 (q.current - (amount - q.edge))) ∧
        (0 ≤ q.current → 0 ≤ (q.spend amount).2.current)) ∧
      ((⟨10, 10, 3⟩ : StatPool).edge = 3 → (1 : Int) = 1 →
        c2.get_pool "might" = some ⟨10, 10, 3⟩) :=
  ⟨by decide,
    resolve_task_effort_spec 4 0 0 1 12 20 "might" _ ⟨10, 10, 3⟩ (by decide)⟩

/-! ### C2: the stat-pool invariant under spend/restore/damage -/

/-- One operation of the sequences quantified over by the invariant
claim: `StatPool.spend`, `StatPool.restore`, or the damage applied by
`CypherRules.apply_damage`. -/
inductive PoolOp where
  | spend (amount : Int)
  | restore (amount : Int)
  | damage (amount : Int)
deriving DecidableEq, Repr

/-- Effect of one operation on a pool.  `spend` and `restore` are the
`StatPool` methods; `damage` performs the pool update of
`CypherRules.apply_damage` (`pool.current = max(0, pool.current - damage)`,
see `apply_damage_pool_effect` below). -/
def PoolOp.app (p : StatPool) : PoolOp → StatPool
  | .spend a => (p.spend a).2
  | .restore a => p.restore a
  | .damage a => { p with current := max 0 (p.current - a) }

/-- A sequence of operations applied left to right. -/
def apply_ops (p : StatPool) : List PoolOp → StatPool
  | [] => p
  | op :: rest => apply_ops (op.app p) rest

/-- `PoolOp.damage` is exactly what `apply_damage` does to the addressed
pool. -/
theorem apply_damage_pool_effect (c : CharacterStats) (pn : String)
    (p : StatPool) (a : Int) (hp : c.get_pool pn = some p) :
    (CypherRules.apply_damage c a pn).2.get_pool pn
      = some (PoolOp.app p (.damage a)) := by
  unfold CypherRules.apply_damage
  rw [hp]
  exact get_pool_set_pool c pn p _ hp

/-- C2 counterexample: the pool `⟨current := 0, maximum := 5, edge := 0⟩`
satisfies `0 ≤ current ≤ maximum`, yet the single `restore (-1)` operation
(`restore` takes an arbitrary Python `int`) drives `current` to `-1`,
so the invariant does not survive every sequence of spend/restore/damage
operations. -/
theorem pool_invariant_counterexample :
    (0 ≤ (⟨0, 5, 0⟩ : StatPool).current ∧
      (⟨0, 5, 0⟩ : StatPool).current ≤ (⟨0, 5, 0⟩ : StatPool).maximum) ∧
    ¬(0 ≤ (apply_ops ⟨0, 5, 0⟩ [PoolOp.restore (-1)]).current ∧
      (apply_ops ⟨0, 5, 0⟩ [PoolOp.restore (-1)]).current
        ≤ (apply_ops ⟨0, 5, 0⟩ [PoolOp.restore (-1)]).maximum) := by
  decide

/-- Does the operation carry a non-negative amount where that matters?
`spend` is unrestricted: it preserves the invariant for every amount. -/
def PoolOp.amount_ok : PoolOp → Bool
  | .spend _ => true
  | .restore a => 0 ≤ a
  | .damage a => 0 ≤ a

/-- A single admissible operation preserves the invariant. -/
theorem pool_op_preserves (p : StatPool) (op : PoolOp)
    (hop : op.amount_ok = true)
    (h0 : 0 ≤ p.current) (h1 : p.current ≤ p.maximum) :
    (0 ≤ (op.app p).current ∧ (op.app p).current ≤ (op.app p).maximum) ∧
    (op.app p).maximum = p.maximum := by
  cases op with
  | spend a =>
    by_cases hle : a ≤ p.edge
    · have happ : PoolOp.app p (.spend a) = p := by
        simp only [PoolOp.app, StatPool.spend]
        rw [if_pos hle]
      rw [happ]
      exact ⟨⟨h0, h1⟩, rfl⟩
    · have happ : PoolOp.app p (.spend a)
          = { p with current := max 0 (p.current - (a - p.edge)) } := by
        simp only [PoolOp.app, StatPool.spend]
        rw [if_neg hle]
      rw [happ]
      dsimp only
      refine ⟨⟨?_, ?_⟩, rfl⟩ <;> omega
  | restore a =>
    simp only [PoolOp.amount_ok, decide_eq_true_eq] at hop
    unfold PoolOp.app StatPool.restore
    dsimp only
    refine ⟨⟨?_, ?_⟩, rfl⟩ <;> omega
  | damage a =>
    simp only [PoolOp.amount_ok, decide_eq_true_eq] at hop
    unfold PoolOp.app
    dsimp only
    refine ⟨⟨?_, ?_⟩, rfl⟩ <;> omega

/-- C2 amended: for every `StatPool` with `0 ≤ current ≤ maximum`, the
invariant still holds after any sequence of `spend` (any amount),
`restore` and `apply_damage` operations whose restore/damage amounts are
non-negative; with a negative restore or damage amount it can fail
(see `pool_invariant_counterexample`). -/
theorem pool_invariant_amended (p : StatPool) (ops : List PoolOp)
    (h0 : 0 ≤ p.current) (h1 : p.current ≤ p.maximum)
    (hops : ∀ op ∈ ops, op.amount_ok = true) :
    0 ≤ (apply_ops p ops).current ∧
      (apply_ops p ops).current ≤ (apply_ops p ops).maximum := by
  induction ops generalizing p with
  | nil => exact ⟨h0, h1⟩
  | cons op rest ih =>
    have hop := hops op (List.mem_cons_self op rest)
    have hstep := pool_op_preserves p op hop h0 h1
    exact ih (op.app p) hstep.1.1 hstep.1.2
      (fun o ho => hops o (List.mem_cons_of_mem op ho))

/-- Witness instantiating `pool_invariant_amended` on a concrete pool and
sequence of operations. -/
theorem pool_invariant_amended_witness :
    (0 ≤ (⟨3, 5, 1⟩ : StatPool).current ∧
      (⟨3, 5, 1⟩ : StatPool).current ≤ (⟨3, 5, 1⟩ : StatPool).maximum) ∧
    (∀ op ∈ [PoolOp.spend 4, PoolOp.restore 2, PoolOp.damage 10,
             PoolOp.spend (-7)], op.amount_ok = true) ∧
    (0 ≤ (apply_ops ⟨3, 5, 1⟩ [PoolOp.spend 4, PoolOp.restore 2,
        PoolOp.damage 10, PoolOp.spend (-7)]).current ∧
      (apply_ops ⟨3, 5, 1⟩ [PoolOp.spend 4, PoolOp.restore 2,
        PoolOp.damage 10, PoolOp.spend (-7)]).current
        ≤ (apply_ops ⟨3, 5, 1⟩ [PoolOp.spend 4, PoolOp.restore 2,
            PoolOp.damage 10, PoolOp.spend (-7)]).maximum) :=
  ⟨⟨by decide, by decide⟩, by decide,
    pool_invariant_amended ⟨3, 5, 1⟩ _ (by decide) (by decide) (by decide)⟩

/-! ### C5: create_session on an existing id -/

/-- A fixed timestamp used by the concrete examples. -/
def ex_now : DateTime := ⟨"2026-01-01T00:00:00"⟩

/-- A concrete character used by the concrete examples. -/
def ex_char : Character :=
  { name := "Ash", descriptor := "awakened", type := "warrior",
    focus := "commands_fire",
    stats := { might := ⟨10, 10, 1⟩, speed := ⟨9, 9, 0⟩,
               intellect := ⟨7, 7, 0⟩ } }

/-- A completed session stored under id "s". -/
def ex_completed_session : SessionInfo :=
  { session_id := "s", channel_id := 1, mode := "solo",
    status := "completed", created_at := ex_now, last_activity := ex_now,
    user_ids := [7], turn_count := 7, scene_count := 7 }

/-- A mid-game state stored under id "s". -/
def c5_state : GameState :=
  { session_id := "s", current_scene := "midgame",
    scene_description := "deep in the ruins",
    available_choices := ["go on"] }

/-- A manager already holding session "s" with mid-game state and one
player character. -/
def c5_manager : SessionManager :=
  { active_sessions := [("s", ex_completed_session)],
    session_states := [("s", c5_state)],
    player_characters := [("s", [(7, ex_char)])] }

/-- C5 counterexample: `create_session` on the already-used id "s" does
not fail — it replaces the stored `SessionInfo` (turn counter 7 becomes
0), replaces the game state (scene "midgame" becomes "opening") and
empties the character map. -/
theorem create_session_counterexample :
    (c5_manager.get_session "s" = some ex_completed_session ∧
      dict_find? "s" c5_manager.player_characters = some [(7, ex_char)]) ∧
    ((c5_manager.create_session "s" 2 9 "solo" ex_now).2.get_session "s"
        ≠ some ex_completed_session) ∧
    ((c5_manager.create_session "s" 2 9 "solo" ex_now).2.get_game_state "s"
        ≠ c5_manager.get_game_state "s") ∧
    dict_find? "s"
        (c5_manager.create_session "s" 2 9 "solo" ex_now).2.player_characters
      = some [] := by
  decide

/-- C5 amended: `create_session` never fails; whether or not the id
already exists, it (re)initializes all three stores for the id — the
returned active `SessionInfo` (creator as sole member, zero counters),
a game state with scene "opening", empty description and no choices, and
an empty character map. -/
theorem create_session_amended (m : SessionManager) (sid : String)
    (ch uid : Int) (mode : String) (now : DateTime) :
    ∃ s m2, m.create_session sid ch uid mode now = (s, m2) ∧
      s = { session_id := sid, channel_id := ch, mode := mode,
            status := "active", created_at := now, last_activity := now,
            user_ids := [uid], turn_count := 0, scene_count := 0 } ∧
      m2.get_session sid = some s ∧
      m2.get_game_state sid
        = some { session_id := sid, current_scene := "opening",
                 scene_description := "", available_choices := [] } ∧
      dict_find? sid m2.player_characters = some [] := by
  refine ⟨_, _, rfl, rfl, ?_, ?_, ?_⟩
  · exact dict_find?_insert sid _ m.active_sessions
  · exact dict_find?_insert sid _ m.session_states
  · exact dict_find?_insert sid _ m.player_characters

/-! ### C6: is "completed" terminal? -/

/-- A manager holding only the completed session "s". -/
def c6_manager : SessionManager :=
  { active_sessions := [("s", ex_completed_session)] }

/-- C6 counterexample: `pause_session` on a completed session succeeds
and changes its status to "paused", so "completed" is not terminal. -/
theorem completed_terminal_counterexample :
    (c6_manager.get_session "s").map SessionInfo.status = some "completed" ∧
    (c6_manager.pause_session "s").1 = true ∧
    ((c6_manager.pause_session "s").2.get_session "s").map SessionInfo.status
      = some "paused" := by
  decide

/-- C6 amended: a completed session is terminal for `resume_session`
(fails, nothing changes) and for `end_session` (no-op success), and
`resume_session` succeeds only from status "paused"; but `pause_session`
succeeds on any existing session, moving even a completed one to
"paused". -/
theorem completed_terminal_amended (m : SessionManager) (sid : String)
    (s : SessionInfo) (now : DateTime)
    (hs : m.get_session sid = some s) (hc : s.status = "completed") :
    (m.end_session sid).1 = true ∧
    (m.end_session sid).2.get_session sid = some s ∧
    m.resume_session sid now = (false, m) ∧
    (∀ m2 : SessionManager, ∀ sid2 : String,
      (m2.resume_session sid2 now).1 = true →
        ∃ s2, m2.get_session sid2 = some s2 ∧ s2.status = "paused") ∧
    (m.pause_session sid).1 = true ∧
    (m.pause_session sid).2.get_session sid
      = some { s with status := "paused" } := by
  have hend : ({ s with status := "completed" } : SessionInfo) = s := by
    cases s
    simp only at hc
    rw [hc]
  refine ⟨?_, ?_, ?_, ?_, ?_, ?_⟩
  · unfold SessionManager.end_session
    rw [hs]
  · unfold SessionManager.end_session SessionManager.get_session at *
    rw [hs]
    dsimp only
    rw [hend]
    exact dict_find?_insert sid s m.active_sessions
  · unfold SessionManager.resume_session
    rw [hs]
    dsimp only
    rw [if_neg (by rw [hc]; decide)]
  · intro m2 sid2 hres
    unfold SessionManager.resume_session at hres
    cases hs2 : m2.get_session sid2 with
    | none =>
      rw [hs2] at hres
      dsimp only at hres
      simp at hres
    | some s2 =>
      rw [hs2] at hres
      dsimp only at hres
      by_cases hp : s2.status = "paused"
      · exact ⟨s2, rfl, hp⟩
      · rw [if_neg hp] at hres
        simp at hres
  · unfold SessionManager.pause_session
    rw [hs]
  · unfold SessionManager.pause_session SessionManager.get_session at *
    rw [hs]
    dsimp only
    exact dict_find?_insert sid _ m.active_sessions

/-- Witness instantiating `completed_terminal_amended` on the concrete
completed session "s". -/
theorem completed_terminal_amended_witness :
    (c6_manager.get_session "s" = some ex_completed_session ∧
      ex_completed_session.status = "completed") ∧
    ((c6_manager.end_session "s").1 = true ∧
    (c6_manager.end_session "s").2.get_session "s"
      = some ex_completed_session ∧
    c6_manager.resume_session "s" ex_now = (false, c6_manager) ∧
    (∀ m2 : SessionManager, ∀ sid2 : String,
      (m2.resume_session sid2 ex_now).1 = true →
        ∃ s2, m2.get_session sid2 = some s2 ∧ s2.status = "paused") ∧
    (c6_manager.pause_session "s").1 = true ∧
    (c6_manager.pause_session "s").2.get_session "s"
      = some { ex_completed_session with status := "paused" }) :=
  ⟨⟨by decide, by decide⟩,
    completed_terminal_amended c6_manager "s" ex_completed_session ex_now
      (by decide) (by decide)⟩

/-! ### C9: export/import round trip -/

/-- `from_dict` undoes `to_dict` (the datetime fields survive the
`isoformat`/`fromisoformat` round trip exactly). -/
theorem session_info_roundtrip (s : SessionInfo) :
    SessionInfo.from_dict s.to_dict = s := rfl

/-- C9: for every stored session (keyed, as the manager maintains, by its
own `session_id`) with a game state, `export_session` followed by
`import_session` stores a `SessionInfo` and a `GameState` equal to the
originals — in particular status, turn/scene counters, current scene,
available choices and the event list are reproduced exactly. -/
theorem export_import_roundtrip (m m2 : SessionManager) (sid : String)
    (sess : SessionInfo) (st : GameState)
    (hsess : m.get_session sid = some sess)
    (hid : sess.session_id = sid)
    (hst : m.get_game_state sid = some st) :
    ∃ d, m.export_session sid = some d ∧
      ∃ m3, m2.import_session d = (some sid, m3) ∧
        m3.get_session sid = some sess ∧
        m3.get_game_state sid = some st ∧
        (m3.get_session sid).map SessionInfo.status = some sess.status ∧
        (m3.get_session sid).map SessionInfo.turn_count
          = some sess.turn_count ∧
        (m3.get_session sid).map SessionInfo.scene_count
          = some sess.scene_count ∧
        (m3.get_game_state sid).map GameState.current_scene
          = some st.current_scene ∧
        (m3.get_game_state sid).map GameState.available_choices
          = some st.available_choices ∧
        (m3.get_game_state sid).map GameState.events = some st.events := by
  unfold SessionManager.export_session
  rw [hsess, hst]
  refine ⟨_, rfl, ?_⟩
  unfold SessionManager.import_session
  dsimp only
  rw [session_info_roundtrip, hid]
  refine ⟨_, rfl, ?_, ?_, ?_, ?_, ?_, ?_, ?_, ?_⟩
  · exact dict_find?_insert sid sess m2.active_sessions
  · show dict_find? sid
      (dict_insert sid (GameState.from_dict (GameState.to_dict st)) m2.session_states)
        = some st
    exact dict_find?_insert sid st m2.session_states
  · show (dict_find? sid (dict_insert sid sess m2.active_sessions)).map
      SessionInfo.status = some sess.status
    rw [dict_find?_insert]
    rfl
  · show (dict_find? sid (dict_insert sid sess m2.active_sessions)).map
      SessionInfo.turn_count = some sess.turn_count
    rw [dict_find?_insert]
    rfl
  · show (dict_find? sid (dict_insert sid sess m2.active_sessions)).map
      SessionInfo.scene_count = some sess.scene_count
    rw [dict_find?_insert]
    rfl
  · show (dict_find? sid
      (dict_insert sid (GameState.from_dict (GameState.to_dict st)) m2.session_states)).map
        GameState.current_scene = some st.current_scene
    rw [dict_find?_insert]
    rfl
  · show (dict_find? sid
      (dict_insert sid (GameState.from_dict (GameState.to_dict st)) m2.session_states)).map
        GameState.available_choices = some st.available_choices
    rw [dict_find?_insert]
    rfl
  · show (dict_find? sid
      (dict_insert sid (GameState.from_dict (GameState.to_dict st)) m2.session_states)).map
        GameState.events = some st.events
    rw [dict_find?_insert]
    rfl

/-- Witness instantiating `export_import_roundtrip` on the concrete
manager holding session "s", re-imported into an empty manager. -/
theorem export_import_roundtrip_witness :
    (c5_manager.get_session "s" = some ex_completed_session ∧
      ex_completed_session.session_id = "s" ∧
      c5_manager.get_game_state "s" = some c5_state) ∧
    ∃ d, c5_manager.export_session "s" = some d ∧
      ∃ m3, SessionManager.import_session {} d = (some "s", m3) ∧
        m3.get_session "s" = some ex_completed_session ∧
        m3.get_game_state "s" = some c5_state ∧
        (m3.get_session "s").map SessionInfo.status
          = some ex_completed_session.status ∧
        (m3.get_session "s").map SessionInfo.turn_count
          = some ex_completed_session.turn_count ∧
        (m3.get_session "s").map SessionInfo.scene_count
          = some ex_completed_session.scene_count ∧
        (m3.get_game_state "s").map GameState.current_scene
          = some c5_state.current_scene ∧
        (m3.get_game_state "s").map GameState.available_choices
          = some c5_state.available_choices ∧
        (m3.get_game_state "s").map GameState.events
          = some c5_state.events :=
  ⟨⟨by decide, by decide, by decide⟩,
    export_import_roundtrip c5_manager {} "s" ex_completed_session c5_state
      (by decide) (by decide) (by decide)⟩

/-! ### C7: out-of-range numbered choice -/

/-- C7: when the raw action is a pure integer string whose 1-based index
falls outside the current choice list, `process_player_action` returns
the validation-error message with the current choice list, and — for
every possible narrator outcome alike, i.e. without consulting the
narrator — leaves the session manager (game state, events, counters)
unchanged. -/
theorem invalid_choice_spec (m : SessionManager) (sid action : String)
    (st : GameState) (hst : m.get_game_state sid = some st)
    (hd : is_digit_string (str_strip action) = true)
    (hout : ¬(0 ≤ (digits_to_nat (str_strip action) : Int) - 1 ∧
        (digits_to_nat (str_strip action) : Int) - 1
          < (st.available_choices.length : Int))) :
    ∀ narr : Except String String,
      GameMasterEngine.process_player_action m sid action narr =
        ({ scene_description := "Invalid choice number. Please pick 1-"
             ++ toString st.available_choices.length ++ ".",
           choices := st.available_choices, key_moment := none }, m) := by
  intro narr
  unfold GameMasterEngine.process_player_action
  rw [hst]
  dsimp only
  rw [if_pos hd, if_neg hout]

/-- Witness instantiating `invalid_choice_spec`: three choices, action
"4". -/
theorem invalid_choice_spec_witness :
    (c5_manager.get_game_state "s" = some c5_state ∧
      is_digit_string (str_strip "4") = true ∧
      ¬(0 ≤ (digits_to_nat (str_strip "4") : Int) - 1 ∧
        (digits_to_nat (str_strip "4") : Int) - 1
          < (c5_state.available_choices.length : Int))) ∧
    GameMasterEngine.process_player_action c5_manager "s" "4"
        (Except.ok "SCENE: x") =
      ({ scene_description := "Invalid choice number. Please pick 1-"
           ++ toString c5_state.available_choices.length ++ ".",
         choices := c5_state.available_choices, key_moment := none },
       c5_manager) :=
  ⟨⟨by decide, by decide, by decide⟩,
    invalid_choice_spec c5_manager "s" "4" c5_state (by decide) (by decide)
      (by decide) (Except.ok "SCENE: x")⟩

/-! ### C8: narrator failure during a turn -/

/-- C8: when the turn reaches the narrator (the action is free-form, or a
numbered choice in range) and the narrator call raises `e`, the turn does
not fail fatally: `process_player_action` returns the error scene
`"Something went wrong processing your action: " ++ e` together with the
pre-call choice list (hence non-empty whenever it was), and the stored
game state is unchanged. -/
theorem narrator_error_spec (m : SessionManager) (sid action e : String)
    (st : GameState) (hst : m.get_game_state sid = some st)
    (hreach : is_digit_string (str_strip action) = false ∨
      (0 ≤ (digits_to_nat (str_strip action) : Int) - 1 ∧
        (digits_to_nat (str_strip action) : Int) - 1
          < (st.available_choices.length : Int))) :
    GameMasterEngine.process_player_action m sid action (Except.error e) =
      ({ scene_description :=
           "Something went wrong processing your action: " ++ e,
         choices := st.available_choices, key_moment := none }, m) ∧
    (st.available_choices ≠ [] →
      (GameMasterEngine.process_player_action m sid action
          (Except.error e)).1.choices ≠ []) := by
  have hmain : GameMasterEngine.process_player_action m sid action
      (Except.error e) =
        ({ scene_description :=
             "Something went wrong processing your action: " ++ e,
           choices := st.available_choices, key_moment := none }, m) := by
    unfold GameMasterEngine.process_player_action
    rw [hst]
    dsimp only
    rcases hreach with hfree | hrange
    · rw [if_neg (by rw [hfree]; decide)]
    · by_cases hd : is_digit_string (str_strip action) = true
      · rw [if_pos hd, if_pos hrange]
      · rw [if_neg hd]
  refine ⟨hmain, fun hne => ?_⟩
  rw [hmain]
  exact hne

/-- Witness instantiating `narrator_error_spec` with a free-form action
and a failing narrator. -/
theorem narrator_error_spec_witness :
    (c5_manager.get_game_state "s" = some c5_state ∧
      is_digit_string (str_strip "search the ruins") = false) ∧
    (GameMasterEngine.process_player_action c5_manager "s"
        "search the ruins" (Except.error "timeout") =
      ({ scene_description :=
           "Something went wrong processing your action: " ++ "timeout",
         choices := c5_state.available_choices, key_moment := none },
       c5_manager) ∧
    (c5_state.available_choices ≠ [] →
      (GameMasterEngine.process_player_action c5_manager "s"
          "search the ruins" (Except.error "timeout")).1.choices ≠ [])) :=
  ⟨⟨by decide, by decide⟩,
    narrator_error_spec c5_manager "s" "search the ruins" "timeout" c5_state
      (by decide) (Or.inl (by decide))⟩
